import Mathlib

/-!
Shallow embedding of the repository `technical-debt-predates-ai`
(`src/github_debt_analysis.py` and `src/commit_nlp_analysis.py`).

Conventions of the embedding:
* Python `int` is `Int` (or `Nat` where the source value is a count that the
  code itself keeps nonnegative, such as loop page numbers).
* Python `float` arithmetic is idealized as exact rational arithmetic (`ℚ`);
  the decimal literals `0.1`, `0.5` of the source become the exact rationals.
* Python strings are Lean `String`s; where parsing proofs need the character
  list, `List Char` stands for the string's characters.
* Fallible Python code (code that can raise) returns `Option`: `none` is an
  exception escaping the modelled fragment.
-/

/-! ### Zero padded decimal rendering and parsing

Python's `datetime.isoformat`, `strftime` and `%` formatting render numbers
as fixed width, zero padded decimal digit runs; `datetime.fromisoformat`
reads such runs back.  `pad w n` is the `w` wide zero padded rendering of
`n` and `charsToNat` reads decimal digits. -/

def digitChar (d : Nat) : Char := Char.ofNat (48 + d)

/-- Decimal digit characters of `n`, least significant first (the fuel is
structural so the kernel can evaluate; `n + 1` calls always suffice). -/
def natDigitsRev (fuel n : Nat) : List Char :=
  match fuel with
  | 0 => []
  | f + 1 => if n = 0 then [] else digitChar (n % 10) :: natDigitsRev f (n / 10)

def natToChars (n : Nat) : List Char := (natDigitsRev (n + 1) n).reverse

theorem natDigitsRev_eq {fuel n : Nat} (h : n < fuel) :
    natDigitsRev fuel n = (Nat.digits 10 n).map digitChar := by
  induction fuel generalizing n with
  | zero => omega
  | succ f ih =>
      unfold natDigitsRev
      by_cases h0 : n = 0
      · subst h0; simp
      · rw [if_neg h0,
          Nat.digits_def' (by norm_num : (1 : ℕ) < 10) (Nat.pos_of_ne_zero h0),
          List.map_cons]
        congr 1
        exact ih (by omega)

theorem natToChars_eq (n : Nat) :
    natToChars n = ((Nat.digits 10 n).reverse).map digitChar := by
  unfold natToChars
  rw [natDigitsRev_eq (Nat.lt_succ_self n), ← List.map_reverse]

def pad (w n : Nat) : List Char :=
  List.replicate (w - (natToChars n).length) '0' ++ natToChars n

def charsToNat (cs : List Char) : Nat :=
  cs.foldl (fun a c => 10 * a + (c.toNat - 48)) 0

theorem digitChar_toNat {d : Nat} (h : d < 10) : (digitChar d).toNat = 48 + d := by
  interval_cases d <;> rfl

theorem digitChar_isDigit {d : Nat} (h : d < 10) : (digitChar d).isDigit = true := by
  interval_cases d <;> rfl

theorem foldl_digits_reverse (l : List Nat) :
    l.reverse.foldl (fun a d => 10 * a + d) 0 = Nat.ofDigits 10 l := by
  induction l with
  | nil => rfl
  | cons x xs ih =>
      rw [List.reverse_cons, List.foldl_append, ih, Nat.ofDigits_cons]
      simp [Nat.mul_comm]
      omega

theorem charsToNat_natToChars (n : Nat) : charsToNat (natToChars n) = n := by
  rw [natToChars_eq]
  unfold charsToNat
  rw [List.foldl_map]
  have h : ∀ (l : List Nat), (∀ d ∈ l, d < 10) →
      l.foldl (fun a c => 10 * a + ((digitChar c).toNat - 48)) 0 =
        l.foldl (fun a d => 10 * a + d) 0 := by
    intro l hl
    induction l using List.reverseRecOn with
    | nil => rfl
    | append_singleton xs x ih =>
        rw [List.foldl_append, List.foldl_append, ih]
        · simp only [List.foldl_cons, List.foldl_nil]
          rw [digitChar_toNat (hl x (by simp))]
          omega
        · intro d hd; exact hl d (by simp [hd])
  rw [h _ (fun d hd => Nat.digits_lt_base (by norm_num) (List.mem_reverse.mp hd))]
  rw [show (Nat.digits 10 n).reverse = ((Nat.digits 10 n).reverse.reverse).reverse by
        rw [List.reverse_reverse],
      List.reverse_reverse, foldl_digits_reverse, Nat.ofDigits_digits]

theorem charsToNat_replicate_zero_append (k : Nat) (cs : List Char) :
    charsToNat (List.replicate k '0' ++ cs) = charsToNat cs := by
  induction k with
  | zero => rfl
  | succ m ih =>
      rw [List.replicate_succ, List.cons_append]
      show charsToNat (List.replicate m '0' ++ cs) = _
      exact ih

theorem charsToNat_pad (w n : Nat) : charsToNat (pad w n) = n := by
  unfold pad
  rw [charsToNat_replicate_zero_append, charsToNat_natToChars]

theorem length_natToChars_le {w n : Nat} (h : n < 10 ^ w) :
    (natToChars n).length ≤ w := by
  rw [natToChars_eq, List.length_map, List.length_reverse]
  rcases Nat.eq_zero_or_pos n with h0 | h0
  · simp [h0]
  · rw [Nat.digits_len 10 n (by norm_num) (Nat.pos_iff_ne_zero.mp h0)]
    exact (Nat.lt_pow_iff_log_lt (by norm_num) (Nat.pos_iff_ne_zero.mp h0)).mp h

theorem length_pad {w n : Nat} (h : n < 10 ^ w) : (pad w n).length = w := by
  unfold pad
  rw [List.length_append, List.length_replicate]
  have := length_natToChars_le h
  omega

theorem all_isDigit_pad (w n : Nat) : (pad w n).all Char.isDigit = true := by
  unfold pad
  rw [natToChars_eq, List.all_append, Bool.and_eq_true]
  refine ⟨?_, ?_⟩
  · rw [List.all_eq_true]; intro c hc
    rw [List.eq_of_mem_replicate hc]; rfl
  · rw [List.all_eq_true]; intro c hc
    rcases List.mem_map.mp hc with ⟨d, hd, rfl⟩
    exact digitChar_isDigit (Nat.digits_lt_base (by norm_num) (List.mem_reverse.mp hd))

/-! ### Digit run parsing (for `datetime.fromisoformat`) -/

def readNat (k : Nat) (cs : List Char) : Option (Nat × List Char) :=
  let pre := cs.take k
  if pre.length = k ∧ pre.all Char.isDigit = true then
    some (charsToNat pre, cs.drop k)
  else none

def expect (c : Char) : List Char → Option (List Char)
  | x :: rest => if x = c then some rest else none
  | [] => none

theorem readNat_pad {w n : Nat} (rest : List Char) (h : n < 10 ^ w) :
    readNat w (pad w n ++ rest) = some (n, rest) := by
  unfold readNat
  have hl : (pad w n).length = w := length_pad h
  rw [List.take_left' hl, List.drop_left' hl]
  simp [hl, all_isDigit_pad, charsToNat_pad]

theorem expect_cons (c : Char) (rest : List Char) : expect c (c :: rest) = some rest := by
  simp [expect]

/-! ### `datetime.datetime`

The model keeps the fields Python's `datetime` carries (the code uses
timezone aware values: GitHub timestamps end in `Z`, replaced by `+00:00`
before parsing).  `tzOffsetMinutes = none` is a naive datetime; Python's
constructor enforces the bounds collected in `Datetime.Valid`. -/

structure Datetime where
  year : Nat
  month : Nat
  day : Nat
  hour : Nat
  minute : Nat
  second : Nat
  microsecond : Nat
  tzOffsetMinutes : Option Int
deriving DecidableEq, Repr

def Datetime.Valid (d : Datetime) : Prop :=
  1 ≤ d.year ∧ d.year ≤ 9999 ∧ 1 ≤ d.month ∧ d.month ≤ 12 ∧
    1 ≤ d.day ∧ d.day ≤ 31 ∧ d.hour ≤ 23 ∧ d.minute ≤ 59 ∧ d.second ≤ 59 ∧
    d.microsecond < 1000000 ∧ ∀ off ∈ d.tzOffsetMinutes, off.natAbs ≤ 1439

instance (d : Datetime) : Decidable d.Valid := by
  unfold Datetime.Valid
  infer_instance

/-- Characters of the `+HH:MM` / `-HH:MM` suffix `datetime.isoformat` appends
for an aware value (empty for a naive one). -/
def tzChars : Option Int → List Char
  | none => []
  | some off =>
      (if off < 0 then '-' else '+') ::
        (pad 2 (off.natAbs / 60) ++ ':' :: pad 2 (off.natAbs % 60))

/-- Characters of the `.ffffff` part `datetime.isoformat` emits exactly when
the microsecond field is nonzero. -/
def fracChars (micro : Nat) : List Char :=
  if micro = 0 then [] else '.' :: pad 6 micro

/-- Characters of `datetime.isoformat()`:
`YYYY-MM-DDTHH:MM:SS[.ffffff][+HH:MM]`. -/
def isoformat (d : Datetime) : List Char :=
  pad 4 d.year ++ '-' :: (pad 2 d.month ++ '-' :: (pad 2 d.day ++ 'T' ::
    (pad 2 d.hour ++ ':' :: (pad 2 d.minute ++ ':' ::
      (pad 2 d.second ++ (fracChars d.microsecond ++ tzChars d.tzOffsetMinutes))))))

def parseFrac : List Char → Option (Nat × List Char)
  | [] => some (0, [])
  | c :: rest => if c = '.' then readNat 6 rest else some (0, c :: rest)

def parseTzSuffix : List Char → Option (Option Int × List Char)
  | [] => some (none, [])
  | '+' :: rest =>
      (readNat 2 rest).bind fun hr =>
      (expect ':' hr.2).bind fun r2 =>
      (readNat 2 r2).bind fun mr =>
        some (some ((hr.1 : Int) * 60 + mr.1), mr.2)
  | '-' :: rest =>
      (readNat 2 rest).bind fun hr =>
      (expect ':' hr.2).bind fun r2 =>
      (readNat 2 r2).bind fun mr =>
        some (some (-((hr.1 : Int) * 60 + mr.1)), mr.2)
  | _ => none

def parseTimeOfDay (cs : List Char) : Option (Nat × Nat × Nat × Nat × Option Int) :=
  (readNat 2 cs).bind fun hr =>
  (expect ':' hr.2).bind fun r2 =>
  (readNat 2 r2).bind fun mir =>
  (expect ':' mir.2).bind fun r4 =>
  (readNat 2 r4).bind fun sr =>
  (parseFrac sr.2).bind fun fr =>
  (parseTzSuffix fr.2).bind fun tzr =>
  if tzr.2 = [] then some (hr.1, mir.1, sr.1, fr.1, tzr.1) else none

/-- `datetime.fromisoformat` on the characters of its argument (`none` models
the `ValueError` Python raises on text the format does not cover). -/
def fromisoformat (cs : List Char) : Option Datetime :=
  (readNat 4 cs).bind fun yr =>
  (expect '-' yr.2).bind fun r2 =>
  (readNat 2 r2).bind fun mor =>
  (expect '-' mor.2).bind fun r4 =>
  (readNat 2 r4).bind fun dar =>
  match dar.2 with
  | [] => some ⟨yr.1, mor.1, dar.1, 0, 0, 0, 0, none⟩
  | sep :: rest =>
      if sep = 'T' ∨ sep = ' ' then
        (parseTimeOfDay rest).map fun t =>
          ⟨yr.1, mor.1, dar.1, t.1, t.2.1, t.2.2.1, t.2.2.2.1, t.2.2.2.2⟩
      else none


theorem readNat_pad_exact {w n : Nat} (h : n < 10 ^ w) :
    readNat w (pad w n) = some (n, []) := by
  have := readNat_pad (w := w) (n := n) [] h
  simpa using this

theorem parseTzSuffix_tzChars {tz : Option Int}
    (h : ∀ off ∈ tz, off.natAbs ≤ 1439) :
    parseTzSuffix (tzChars tz) = some (tz, []) := by
  match tz with
  | none => rfl
  | some off =>
      have hoff : off.natAbs ≤ 1439 := h off rfl
      have hdiv : off.natAbs / 60 < 10 ^ 2 := by omega
      have hmod : off.natAbs % 60 < 10 ^ 2 := by omega
      rcases lt_or_le off 0 with hneg | hpos
      · have e1 : tzChars (some off)
            = '-' :: (pad 2 (off.natAbs / 60) ++ ':' :: pad 2 (off.natAbs % 60)) := by
          simp only [tzChars, if_pos hneg]
        rw [e1]
        simp only [parseTzSuffix, readNat_pad _ hdiv, Option.some_bind, expect_cons,
          readNat_pad_exact hmod]
        have e2 : -(((off.natAbs / 60 : Nat) : Int) * 60 + ((off.natAbs % 60 : Nat) : Int))
            = off := by omega
        rw [e2]
      · have e1 : tzChars (some off)
            = '+' :: (pad 2 (off.natAbs / 60) ++ ':' :: pad 2 (off.natAbs % 60)) := by
          simp only [tzChars, if_neg (not_lt.mpr hpos)]
        rw [e1]
        simp only [parseTzSuffix, readNat_pad _ hdiv, Option.some_bind, expect_cons,
          readNat_pad_exact hmod]
        have e2 : (((off.natAbs / 60 : Nat) : Int) * 60 + ((off.natAbs % 60 : Nat) : Int))
            = off := by omega
        rw [e2]

theorem parseFrac_fracChars {micro : Nat} (h : micro < 1000000) (tail : List Char)
    (htail : ∀ c ∈ tail.head?, c ≠ '.') :
    parseFrac (fracChars micro ++ tail) = some (micro, tail) := by
  unfold fracChars
  by_cases h0 : micro = 0
  · subst h0
    rw [if_pos rfl, List.nil_append]
    match tail with
    | [] => rfl
    | c :: rest =>
        have hc : c ≠ '.' := htail c rfl
        simp only [parseFrac, if_neg hc]
  · rw [if_neg h0, List.cons_append]
    simp only [parseFrac, if_pos rfl]
    exact readNat_pad tail (by omega)

theorem readNat_pad' {w n : Nat} (h : n < 10 ^ w) (rest : List Char) :
    readNat w (pad w n ++ rest) = some (n, rest) := readNat_pad rest h

theorem tzChars_head_ne_dot (tz : Option Int) : ∀ c ∈ (tzChars tz).head?, c ≠ '.' := by
  match tz with
  | none => intro c hc; simp [tzChars] at hc
  | some off =>
      intro c hc
      rcases lt_or_le off 0 with hneg | hpos
      · simp only [tzChars, if_pos hneg, List.head?_cons, Option.mem_def,
          Option.some.injEq] at hc
        subst hc; decide
      · simp only [tzChars, if_neg (not_lt.mpr hpos), List.head?_cons, Option.mem_def,
          Option.some.injEq] at hc
        subst hc; decide

/-- Round trip of `datetime.isoformat` through `datetime.fromisoformat`, the
pair `save_cache` / `load_cache` relies on for the `created_at` field. -/
theorem fromisoformat_isoformat {d : Datetime} (h : d.Valid) :
    fromisoformat (isoformat d) = some d := by
  obtain ⟨hy1, hy2, hm1, hm2, hd1, hd2, hh, hmi, hs, hmicro, htz⟩ := h
  have by4 : d.year < 10 ^ 4 := by omega
  have bm : d.month < 10 ^ 2 := by omega
  have bd : d.day < 10 ^ 2 := by omega
  have bh : d.hour < 10 ^ 2 := by omega
  have bmi : d.minute < 10 ^ 2 := by omega
  have bs : d.second < 10 ^ 2 := by omega
  simp only [fromisoformat, isoformat, parseTimeOfDay, readNat_pad' by4, readNat_pad' bm,
    readNat_pad' bd, readNat_pad' bh, readNat_pad' bmi, Option.some_bind, expect_cons]
  rw [show pad 2 d.second ++ (fracChars d.microsecond ++ tzChars d.tzOffsetMinutes)
        = pad 2 d.second ++ (fracChars d.microsecond ++ tzChars d.tzOffsetMinutes) from rfl,
      readNat_pad' bs, Option.some_bind,
      parseFrac_fracChars hmicro _ (tzChars_head_ne_dot _), Option.some_bind,
      parseTzSuffix_tzChars htz, Option.some_bind]
  simp

/-! ### Calendar arithmetic

`datetime.now(tz) - created_at` with `.days` is what `RepoMetrics.age_days`
computes.  `dateOrdinal` is Python's `date.toordinal` (proleptic Gregorian
day number), `Datetime.totalMicro` the instant in microseconds (aware values
shifted by their UTC offset; a naive value is taken at offset 0), and
`timedeltaDays` the `.days` of the difference, which floors toward negative
infinity exactly as `datetime.timedelta` normalizes. -/

def isLeapYear (y : Nat) : Bool := (y % 4 == 0 && y % 100 != 0) || y % 400 == 0

def monthLengths (leap : Bool) : List Nat :=
  [31, if leap then 29 else 28, 31, 30, 31, 30, 31, 31, 30, 31, 30, 31]

def daysBeforeMonth (m : Nat) (leap : Bool) : Nat :=
  ((monthLengths leap).take (m - 1)).sum

def dateOrdinal (y m d : Nat) : Nat :=
  365 * (y - 1) + (y - 1) / 4 - (y - 1) / 100 + (y - 1) / 400
    + daysBeforeMonth m (isLeapYear y) + d

def Datetime.totalMicro (dt : Datetime) : Int :=
  ((dateOrdinal dt.year dt.month dt.day : Int) * 86400
      + dt.hour * 3600 + dt.minute * 60 + dt.second
      - 60 * dt.tzOffsetMinutes.getD 0) * 1000000
    + dt.microsecond

def timedeltaDays (a b : Datetime) : Int :=
  (a.totalMicro - b.totalMicro).fdiv 86400000000

/-! ### `RepoMetrics` (github_debt_analysis.py)

The dataclass and its derived properties.  `age_days` and `issues_per_year`
read the clock (`datetime.now`), so the embedding passes the current instant
`now` explicitly. -/

structure RepoMetrics where
  name : String
  full_name : String
  stars : Int
  open_issues : Int
  created_at : Datetime
  language : Option String
  forks : Int
  total_issues : Int := 0
  closed_issues : Int := 0
  contributors : Int := 0
  commits : Int := 0
  updated_at : Option Datetime := none
deriving DecidableEq, Repr

/-- Issues per 1000 stars - normalized debt indicator. -/
def RepoMetrics.issues_per_1k_stars (r : RepoMetrics) : ℚ :=
  if r.stars = 0 then 0 else ((r.open_issues : ℚ) / (r.stars : ℚ)) * 1000

/-- Percentage of issues that have been closed (maintenance health). -/
def RepoMetrics.issue_close_rate (r : RepoMetrics) : ℚ :=
  if r.total_issues = 0 then 0
  else ((r.closed_issues : ℚ) / (r.total_issues : ℚ)) * 100

/-- Repository age in days, at clock instant `now`. -/
def RepoMetrics.age_days (r : RepoMetrics) (now : Datetime) : Int :=
  timedeltaDays now r.created_at

/-- Average open issues accumulated per year of existence. -/
def RepoMetrics.issues_per_year (r : RepoMetrics) (now : Datetime) : ℚ :=
  let years : ℚ := max ((r.age_days now : ℚ) / 365) (1 / 10)
  (r.open_issues : ℚ) / years

/-- Categorize by AI era: pre-AI (before 2022) or post-AI (2022+). -/
def RepoMetrics.era (r : RepoMetrics) : String :=
  if r.created_at.year < 2022 then "pre-ai" else "post-ai"

/-- Era classification as `commit_nlp_analysis.analyze_repo` computes it from
the creation timestamp. -/
def nlpEraOf (created_at : Datetime) : String :=
  if created_at.year < 2022 then "pre-ai" else "post-ai"

/-! ### The cache file (`save_cache` / `load_cache`)

`repo_cache.json` is a JSON array of flat objects; `CacheItem` is one such
object (`created_at` is the string `isoformat` wrote).  `load_cache` wraps
its whole loop in `try`/`except` and returns the empty list on any failure,
so the embedding collapses a failing parse to `[]`. -/

structure CacheItem where
  name : String
  full_name : String
  stars : Int
  open_issues : Int
  created_at : String
  language : Option String
  forks : Int
  total_issues : Int
  closed_issues : Int
  contributors : Int
deriving DecidableEq, Repr

def save_cache (repos : List RepoMetrics) : List CacheItem :=
  repos.map fun r =>
    { name := r.name
      full_name := r.full_name
      stars := r.stars
      open_issues := r.open_issues
      created_at := String.mk (isoformat r.created_at)
      language := r.language
      forks := r.forks
      total_issues := r.total_issues
      closed_issues := r.closed_issues
      contributors := r.contributors }

def load_cache_item (item : CacheItem) : Option RepoMetrics :=
  (fromisoformat item.created_at.data).map fun dt =>
    { name := item.name
      full_name := item.full_name
      stars := item.stars
      open_issues := item.open_issues
      created_at := dt
      language := item.language
      forks := item.forks
      total_issues := item.total_issues
      closed_issues := item.closed_issues
      contributors := item.contributors }

def load_cache_loop : List CacheItem → Option (List RepoMetrics)
  | [] => some []
  | item :: rest =>
      (load_cache_item item).bind fun r =>
        (load_cache_loop rest).map fun rs => r :: rs

def load_cache (data : List CacheItem) : List RepoMetrics :=
  match load_cache_loop data with
  | some repos => repos
  | none => []

theorem load_cache_loop_save (repos : List RepoMetrics)
    (h : ∀ r ∈ repos, r.created_at.Valid) :
    load_cache_loop (save_cache repos)
      = some (repos.map fun r => { r with commits := 0, updated_at := none }) := by
  induction repos with
  | nil => rfl
  | cons r rs ih =>
      simp only [save_cache, List.map_cons, load_cache_loop] at ih ⊢
      rw [show load_cache_item
            { name := r.name, full_name := r.full_name, stars := r.stars,
              open_issues := r.open_issues,
              created_at := String.mk (isoformat r.created_at),
              language := r.language, forks := r.forks, total_issues := r.total_issues,
              closed_issues := r.closed_issues, contributors := r.contributors }
            = (fromisoformat (isoformat r.created_at)).map fun dt =>
                { name := r.name, full_name := r.full_name, stars := r.stars,
                  open_issues := r.open_issues, created_at := dt,
                  language := r.language, forks := r.forks,
                  total_issues := r.total_issues, closed_issues := r.closed_issues,
                  contributors := r.contributors } from rfl,
          fromisoformat_isoformat (h r (by simp)), Option.map_some', Option.some_bind,
          ih (fun x hx => h x (List.mem_cons_of_mem _ hx)), Option.map_some']

theorem load_cache_save_cache (repos : List RepoMetrics)
    (h : ∀ r ∈ repos, r.created_at.Valid) :
    load_cache (save_cache repos)
      = repos.map fun r => { r with commits := 0, updated_at := none } := by
  unfold load_cache
  rw [load_cache_loop_save repos h]

theorem forall₂_map_self {α β : Type} (f : α → β) (P : β → α → Prop)
    (hP : ∀ x, P (f x) x) (l : List α) : List.Forall₂ P (l.map f) l := by
  induction l with
  | nil => exact List.Forall₂.nil
  | cons x xs ih => exact List.Forall₂.cons (hP x) ih

/-- C5: saving a list of `RepoMetrics` to the cache format (`save_cache`) and
reloading it (`load_cache`) yields a list of the same length in which every
entry keeps `full_name`, `stars`, `open_issues`, `created_at` and `era` of
the corresponding original entry.  (The hypothesis says every stored
timestamp is one Python's `datetime` can hold.) -/
theorem cache_round_trip (repos : List RepoMetrics)
    (h : ∀ r ∈ repos, r.created_at.Valid) :
    (load_cache (save_cache repos)).length = repos.length ∧
      List.Forall₂
        (fun r' r => r'.full_name = r.full_name ∧ r'.stars = r.stars ∧
          r'.open_issues = r.open_issues ∧ r'.created_at = r.created_at ∧
          r'.era = r.era)
        (load_cache (save_cache repos)) repos := by
  rw [load_cache_save_cache repos h]
  exact ⟨by simp,
    forall₂_map_self _ _ (fun r => ⟨rfl, rfl, rfl, rfl, rfl⟩) repos⟩

def cacheDemoRepos : List RepoMetrics :=
  [ { name := "alpha", full_name := "octo/alpha", stars := 1200, open_issues := 40,
      created_at := ⟨2019, 7, 4, 12, 30, 5, 250000, some 0⟩,
      language := some ("Python"), forks := 10 },
    { name := "beta", full_name := "octo/beta", stars := 3000, open_issues := 10,
      created_at := ⟨2023, 1, 15, 0, 0, 0, 0, some (-330)⟩, language := none,
      forks := 3, total_issues := 25, closed_issues := 15, contributors := 4 } ]

/-- Witness for C5 at a concrete two-entry repository list. -/
theorem cache_round_trip_witness :
    (load_cache (save_cache cacheDemoRepos)).length = cacheDemoRepos.length ∧
      List.Forall₂
        (fun r' r => r'.full_name = r.full_name ∧ r'.stars = r.stars ∧
          r'.open_issues = r.open_issues ∧ r'.created_at = r.created_at ∧
          r'.era = r.era)
        (load_cache (save_cache cacheDemoRepos)) cacheDemoRepos :=
  cache_round_trip cacheDemoRepos (by decide)

def boundary2022Repo : RepoMetrics :=
  { name := "boundary", full_name := "octo/boundary", stars := 500, open_issues := 2,
    created_at := ⟨2022, 1, 1, 0, 0, 0, 0, some 0⟩, language := some ("Go"), forks := 1 }

/-- C1: `era` is `"pre-ai"` iff the creation year is strictly below 2022 and
`"post-ai"` iff it is 2022 or later (so every repository gets exactly one of
the two values, the strings being distinct); `analyze_repo` of the commit
pipeline classifies identically; the boundary repository created exactly
2022-01-01T00:00:00Z is `"post-ai"`. -/
theorem era_classification :
    (∀ r : RepoMetrics,
        (r.era = "pre-ai" ↔ r.created_at.year < 2022) ∧
          (r.era = "post-ai" ↔ 2022 ≤ r.created_at.year) ∧
          (r.era = "pre-ai" ∨ r.era = "post-ai")) ∧
      (∀ r : RepoMetrics, nlpEraOf r.created_at = r.era) ∧
      boundary2022Repo.era = "post-ai" := by
  refine ⟨fun r => ?_, fun r => rfl, by decide⟩
  unfold RepoMetrics.era
  by_cases hy : r.created_at.year < 2022
  · rw [if_pos hy]
    exact ⟨⟨fun _ => hy, fun _ => rfl⟩,
      ⟨fun hpre => absurd hpre (by decide), fun h2 => absurd h2 (by omega)⟩,
      Or.inl rfl⟩
  · rw [if_neg hy]
    exact ⟨⟨fun hpost => absurd hpost (by decide), fun hlt => absurd hlt hy⟩,
      ⟨fun _ => by omega, fun _ => rfl⟩,
      Or.inr rfl⟩

/-- C2: a repository with `stars = 0` gets `issues_per_1k_stars = 0`, for any
open-issue count, instead of a division by zero. -/
theorem issues_per_1k_stars_zero_stars (r : RepoMetrics) (h : r.stars = 0) :
    r.issues_per_1k_stars = 0 := by
  unfold RepoMetrics.issues_per_1k_stars
  rw [if_pos h]

def zeroStarRepo : RepoMetrics :=
  { name := "zero", full_name := "octo/zero", stars := 0, open_issues := 77,
    created_at := ⟨2021, 3, 3, 0, 0, 0, 0, some 0⟩, language := none, forks := 0 }

/-- Witness for C2 at a concrete zero-star repository with 77 open issues. -/
theorem issues_per_1k_stars_zero_stars_witness :
    zeroStarRepo.issues_per_1k_stars = 0 :=
  issues_per_1k_stars_zero_stars zeroStarRepo rfl

/-! ### Regular expression matching (commit_nlp_analysis.py)

A small evaluator for exactly the constructs the five signal tables use:
literals, character classes, concatenation, alternation `(a|b)`, option `?`,
`*` and `+` quantifiers, the word boundary `\b` and the start anchor `^`.
`re.search(pattern, message, re.IGNORECASE)` becomes `re_search`: a match is
looked for at every position, literals compare case folded, `\w` is
alphanumeric-or-underscore as for ASCII text.  The evaluator matches in
continuation style with a fuel argument; the fuel passed by `re_search`
exceeds every backtracking depth reachable with these finite patterns. -/

inductive RE where
  | eps
  | lit (c : Char)
  | cls (p : Char → Bool)
  | seq (a b : RE)
  | alt (a b : RE)
  | opt (a : RE)
  | star (a : RE)
  | plus (a : RE)
  | wb
  | bol

def isWordChar (c : Char) : Bool := c.isAlphanum || c == '_'

def wordCharAt (s : List Char) (i : Nat) : Bool :=
  match s.get? i with
  | some c => isWordChar c
  | none => false

def atWordBoundary (s : List Char) (i : Nat) : Bool :=
  (match i with
    | 0 => false
    | j + 1 => wordCharAt s j) != wordCharAt s i

def reMatch (fuel : Nat) (r : RE) (s : List Char) (i : Nat) (k : Nat → Bool) : Bool :=
  match fuel with
  | 0 => false
  | f + 1 =>
      match r with
      | .eps => k i
      | .lit c =>
          match s.get? i with
          | some t => t.toLower == c.toLower && k (i + 1)
          | none => false
      | .cls p =>
          match s.get? i with
          | some t => p t && k (i + 1)
          | none => false
      | .seq a b => reMatch f a s i fun j => reMatch f b s j k
      | .alt a b => reMatch f a s i k || reMatch f b s i k
      | .opt a => reMatch f a s i k || k i
      | .star a => reMatch f a s i (fun j => reMatch f (.star a) s j k) || k i
      | .plus a => reMatch f a s i fun j => reMatch f (.star a) s j k
      | .wb => atWordBoundary s i && k i
      | .bol => i == 0 && k i

def re_search (r : RE) (s : String) : Bool :=
  (List.range (s.data.length + 1)).any fun i =>
    reMatch (s.data.length + 100) r s.data i fun _ => true

def reStr (w : String) : RE := (w.data.map RE.lit).foldr RE.seq RE.eps

/-- The shape `\bWORD\b` most signal patterns take. -/
def reWord (w : String) : RE := RE.seq RE.wb (RE.seq (reStr w) RE.wb)

def spaceCls : RE := RE.cls Char.isWhitespace

/-- The class `[sd]` (case insensitive like the rest of the pattern). -/
def sdCls : RE := RE.cls fun c => c.toLower == 's' || c.toLower == 'd'

def apos : Char := Char.ofNat 39

/-- Debt signal keywords (`DEBT_SIGNALS` of the source, in dict order). -/
def DEBT_SIGNALS : List (String × RE) :=
  [ ("todo", reWord ("TODO")),
    ("fixme", reWord ("FIXME")),
    ("hack", reWord ("HACK")),
    ("xxx", reWord ("XXX")),
    ("temporary", RE.seq RE.wb (RE.seq (reStr ("temporar"))
      (RE.seq (RE.alt (reStr ("y")) (reStr ("ily"))) RE.wb))),
    ("workaround", reWord ("workaround")),
    ("kludge", reWord ("kludge")),
    ("broken", reWord ("broken")),
    ("ugly", reWord ("ugly")),
    ("dirty", reWord ("dirty")),
    ("tech.debt", RE.seq RE.wb (RE.seq (reStr ("tech"))
      (RE.seq (RE.opt (reStr ("nical")))
        (RE.seq (RE.star spaceCls) (RE.seq (reStr ("debt")) RE.wb))))) ]

/-- Bug/fix signals (`BUG_SIGNALS`). -/
def BUG_SIGNALS : List (String × RE) :=
  [ ("fix", RE.seq RE.wb (RE.seq (reStr ("fix"))
      (RE.seq (RE.opt (RE.seq (reStr ("e")) sdCls)) RE.wb))),
    ("bug", reWord ("bug")),
    ("issue", reWord ("issue")),
    ("patch", reWord ("patch")),
    ("hotfix", reWord ("hotfix")),
    ("resolve", RE.seq RE.wb (RE.seq (reStr ("resolv"))
      (RE.seq (RE.alt (RE.seq (reStr ("e")) (RE.opt sdCls)) (reStr ("ing"))) RE.wb))),
    ("repair", reWord ("repair")) ]

/-- Revert/undo signals (`REVERT_SIGNALS`). -/
def REVERT_SIGNALS : List (String × RE) :=
  [ ("revert", reWord ("revert")),
    ("undo", reWord ("undo")),
    ("rollback", reWord ("rollback")),
    ("back.out", RE.seq RE.wb (RE.seq (reStr ("back"))
      (RE.seq (RE.opt (RE.alt (reStr ("ed")) (reStr ("ing"))))
        (RE.seq (RE.star spaceCls) (RE.seq (reStr ("out")) RE.wb))))) ]

/-- Frustration signals (`FRUSTRATION_SIGNALS`); note `why` is anchored with
`^` where every other pattern is word bounded. -/
def FRUSTRATION_SIGNALS : List (String × RE) :=
  [ ("finally", reWord ("finally")),
    ("stupid", reWord ("stupid")),
    ("wtf", reWord ("wtf")),
    ("why", RE.seq RE.bol (RE.seq (reStr ("why")) RE.wb)),
    ("ugh", RE.seq RE.wb (RE.seq (RE.plus (RE.lit 'u'))
      (RE.seq (RE.lit 'g') (RE.seq (RE.plus (RE.lit 'h')) RE.wb)))),
    ("argh", RE.seq RE.wb (RE.seq (RE.plus (RE.lit 'a'))
      (RE.seq (RE.lit 'r') (RE.seq (RE.lit 'g')
        (RE.seq (RE.plus (RE.lit 'h')) RE.wb))))),
    ("damn", reWord ("damn")),
    ("crap", reWord ("crap")),
    ("cmon", RE.seq RE.wb (RE.seq (RE.lit 'c')
      (RE.seq (RE.opt (RE.lit apos)) (RE.seq (reStr ("mon")) RE.wb)))),
    ("ffs", reWord ("ffs")),
    ("sigh", reWord ("sigh")),
    ("hate", reWord ("hate")),
    ("horrible", reWord ("horrible")),
    ("terrible", reWord ("terrible")),
    ("nightmare", reWord ("nightmare")) ]

/-- Positive signals (`POSITIVE_SIGNALS`). -/
def POSITIVE_SIGNALS : List (String × RE) :=
  [ ("improve", RE.seq RE.wb (RE.seq (reStr ("improv"))
      (RE.seq (RE.alt (RE.seq (reStr ("e")) (RE.opt sdCls))
        (RE.alt (reStr ("ing")) (reStr ("ement")))) RE.wb))),
    ("enhance", RE.seq RE.wb (RE.seq (reStr ("enhance"))
      (RE.seq (RE.opt sdCls) RE.wb))),
    ("optimize", RE.seq RE.wb (RE.seq (reStr ("optimiz"))
      (RE.seq (RE.alt (RE.seq (reStr ("e")) (RE.opt sdCls)) (reStr ("ation"))) RE.wb))),
    ("refactor", RE.seq RE.wb (RE.seq (reStr ("refactor"))
      (RE.seq (RE.opt (RE.alt (reStr ("ed")) (reStr ("ing")))) RE.wb))),
    ("clean", RE.seq RE.wb (RE.seq (reStr ("clean"))
      (RE.seq (RE.opt (RE.alt (reStr ("ed")) (RE.alt (reStr ("ing")) (reStr ("up")))))
        RE.wb))),
    ("simplify", RE.seq RE.wb (RE.seq (reStr ("simplif"))
      (RE.seq (RE.alt (reStr ("y")) (RE.alt (reStr ("ied")) (reStr ("ies")))) RE.wb))) ]

/-! ### `collections.Counter` as an insertion ordered association list -/

def counterAdd (c : List (String × Nat)) (k : String) (n : Nat) : List (String × Nat) :=
  if (c.map Prod.fst).contains k then
    c.map fun p => if p.1 == k then (p.1, p.2 + n) else p
  else c ++ [(k, n)]

def counterUpdate (c other : List (String × Nat)) : List (String × Nat) :=
  other.foldl (fun acc p => counterAdd acc p.1 p.2) c

def counterTotal (c : List (String × Nat)) : Nat := (c.map Prod.snd).sum

/-- The five per message tallies `analyze_message` returns. -/
structure MessageSignals where
  debt : List (String × Nat)
  bug : List (String × Nat)
  revert : List (String × Nat)
  frustration : List (String × Nat)
  positive : List (String × Nat)
deriving DecidableEq, Repr

def tallyAgainst (signals : List (String × RE)) (message : String) :
    List (String × Nat) :=
  signals.foldl
    (fun acc p => if re_search p.2 message then counterAdd acc p.1 1 else acc) []

/-- Analyze a single commit message for signals
(`analyze_message` of `commit_nlp_analysis.py`). -/
def analyze_message (message : String) : MessageSignals :=
  { debt := tallyAgainst DEBT_SIGNALS message
    bug := tallyAgainst BUG_SIGNALS message
    revert := tallyAgainst REVERT_SIGNALS message
    frustration := tallyAgainst FRUSTRATION_SIGNALS message
    positive := tallyAgainst POSITIVE_SIGNALS message }

/-- C7: the message `TODO: fix this hack later` yields exactly the debt
signals todo and hack and exactly the bug signal fix, each with count 1, and
no revert, frustration or positive signals. -/
theorem analyze_message_todo_fix_hack :
    analyze_message ("TODO: fix this hack later")
      = { debt := [("todo", 1), ("hack", 1)], bug := [("fix", 1)],
          revert := [], frustration := [], positive := [] } := by
  decide

/-- C6: `why does this keep breaking` triggers the `why` frustration signal
(with count 1) while `I wonder why this breaks` triggers no `why` signal,
the `why` pattern being anchored to the start of the message. -/
theorem why_signal_anchored :
    (analyze_message ("why does this keep breaking")).frustration = [("why", 1)] ∧
      (analyze_message ("I wonder why this breaks")).frustration = [] := by
  decide

/-! ### Python `statistics` and `round`

`round` is decimal round half to even (the exact-real idealization of
Python's float round); `statistics.mean` raises `StatisticsError` on an
empty list, which `Option` records; `statistics.stdev` only ever reaches the
report through `round(..., 2)`, so the embedding provides that composition
(`stdevRound2`), computing the correctly rounded square root of the exact
sample variance. -/

def roundHalfEven (q : ℚ) : Int :=
  let f := ⌊q⌋
  let r := q - f
  if r < 1 / 2 then f
  else if 1 / 2 < r then f + 1
  else if f % 2 = 0 then f else f + 1

def pyRound (ndigits : Nat) (q : ℚ) : ℚ :=
  (roundHalfEven (q * 10 ^ ndigits) : ℚ) / 10 ^ ndigits

def statistics_mean (l : List ℚ) : Option ℚ :=
  if l = [] then none else some (l.sum / l.length)

def meanVal (l : List ℚ) : ℚ := l.sum / l.length

def statistics_median (l : List ℚ) : ℚ :=
  let sorted := l.insertionSort (· ≤ ·)
  let n := l.length
  if n % 2 = 1 then sorted.getD (n / 2) 0
  else (sorted.getD (n / 2 - 1) 0 + sorted.getD (n / 2) 0) / 2

/-- Round half even of `100 * √q` divided by 100, i.e. `round(sqrt(q), 2)`
for a nonnegative rational `q`. -/
def sqrtRound2 (q : ℚ) : ℚ :=
  let T : ℚ := 10000 * q
  let k : Nat := Nat.sqrt T.floor.toNat
  if T < ((k : ℚ) + 1 / 2) ^ 2 then (k : ℚ) / 100
  else if ((k : ℚ) + 1 / 2) ^ 2 < T then ((k : ℚ) + 1) / 100
  else if k % 2 = 0 then (k : ℚ) / 100 else ((k : ℚ) + 1) / 100

/-- The composition `round(statistics.stdev(l), 2)` (sample standard
deviation; the call sites guard `len(l) > 1`). -/
def stdevRound2 (l : List ℚ) : ℚ :=
  sqrtRound2 ((l.map (fun x => (x - meanVal l) ^ 2)).sum / ((l.length : ℚ) - 1))

/-! ### `CommitAnalysis` (commit_nlp_analysis.py) -/

structure CommitAnalysis where
  repo : String
  era : String
  total_commits : Nat := 0
  debt_signals : List (String × Nat) := []
  bug_signals : List (String × Nat) := []
  revert_signals : List (String × Nat) := []
  frustration_signals : List (String × Nat) := []
  positive_signals : List (String × Nat) := []
  message_lengths : List Nat := []
  sample_messages : List String := []
deriving DecidableEq, Repr

/-- Debt signals per 100 commits. -/
def CommitAnalysis.debt_ratio (a : CommitAnalysis) : ℚ :=
  if a.total_commits = 0 then 0
  else ((counterTotal a.debt_signals : ℚ) / (a.total_commits : ℚ)) * 100

/-- Bug/fix signals per 100 commits. -/
def CommitAnalysis.bug_ratio (a : CommitAnalysis) : ℚ :=
  if a.total_commits = 0 then 0
  else ((counterTotal a.bug_signals : ℚ) / (a.total_commits : ℚ)) * 100

/-- Revert signals per 100 commits. -/
def CommitAnalysis.revert_ratio (a : CommitAnalysis) : ℚ :=
  if a.total_commits = 0 then 0
  else ((counterTotal a.revert_signals : ℚ) / (a.total_commits : ℚ)) * 100

/-- Frustration signals per 100 commits. -/
def CommitAnalysis.frustration_ratio (a : CommitAnalysis) : ℚ :=
  if a.total_commits = 0 then 0
  else ((counterTotal a.frustration_signals : ℚ) / (a.total_commits : ℚ)) * 100

/-- Positive signals per 100 commits. -/
def CommitAnalysis.positive_ratio (a : CommitAnalysis) : ℚ :=
  if a.total_commits = 0 then 0
  else ((counterTotal a.positive_signals : ℚ) / (a.total_commits : ℚ)) * 100

def CommitAnalysis.avg_message_length (a : CommitAnalysis) : ℚ :=
  if a.message_lengths = [] then 0
  else meanVal (a.message_lengths.map (Nat.cast : Nat → ℚ))

/-! ### `aggregate_by_era` (commit_nlp_analysis.py) -/

/-- Value of one Python dict-producing call: `raises` models an exception
escaping it, `empty` the `{}` returned for an empty era partition. -/
inductive PyDictResult (α : Type) where
  | raises
  | empty
  | ok (a : α)
deriving DecidableEq, Repr

/-- `Counter.most_common(n)`: by count descending, ties in first-encounter
order (a stable descending sort). -/
def most_common (c : List (String × Nat)) (n : Nat) : List (String × Nat) :=
  (c.insertionSort fun p q => q.2 ≤ p.2).take n

structure NlpEraStats where
  repos : Nat
  total_commits : Nat
  debt_per_100 : ℚ
  bug_per_100 : ℚ
  revert_per_100 : ℚ
  frustration_per_100 : ℚ
  positive_per_100 : ℚ
  top_debt_signals : List (String × Nat)
  top_bug_signals : List (String × Nat)
  top_frustration_signals : List (String × Nat)
  avg_msg_length : ℚ
deriving DecidableEq, Repr

/-- One per-100-commits entry of `calc_stats`:
`round((signalTotal / total_commits) * 100, 2) if total_commits else 0`. -/
def per100 (signalTotal total_commits : Nat) : ℚ :=
  if total_commits ≠ 0 then
    pyRound 2 (((signalTotal : ℚ) / (total_commits : ℚ)) * 100)
  else 0

/-- `calc_stats` of `aggregate_by_era` in `commit_nlp_analysis.py`.  The
`avg_msg_length` entry calls `statistics.mean` on the averages filtered to
positive values; when that filtered list is empty the call raises
`StatisticsError`, which `PyDictResult.raises` records. -/
def nlp_calc_stats (analysis_list : List CommitAnalysis) : PyDictResult NlpEraStats :=
  if analysis_list = [] then .empty
  else
    let total_commits := (analysis_list.map CommitAnalysis.total_commits).sum
    let all_debt := analysis_list.foldl (fun acc a => counterUpdate acc a.debt_signals) []
    let all_bug := analysis_list.foldl (fun acc a => counterUpdate acc a.bug_signals) []
    let all_revert :=
      analysis_list.foldl (fun acc a => counterUpdate acc a.revert_signals) []
    let all_frustration :=
      analysis_list.foldl (fun acc a => counterUpdate acc a.frustration_signals) []
    let all_positive :=
      analysis_list.foldl (fun acc a => counterUpdate acc a.positive_signals) []
    match statistics_mean
        ((analysis_list.map CommitAnalysis.avg_message_length).filter
          (fun x => 0 < x)) with
    | none => .raises
    | some m =>
        .ok { repos := analysis_list.length
              total_commits := total_commits
              debt_per_100 := per100 (counterTotal all_debt) total_commits
              bug_per_100 := per100 (counterTotal all_bug) total_commits
              revert_per_100 := per100 (counterTotal all_revert) total_commits
              frustration_per_100 := per100 (counterTotal all_frustration) total_commits
              positive_per_100 := per100 (counterTotal all_positive) total_commits
              top_debt_signals := most_common all_debt 5
              top_bug_signals := most_common all_bug 5
              top_frustration_signals := most_common all_frustration 5
              avg_msg_length := pyRound 1 m }

/-- `aggregate_by_era`: the pre-ai and post-ai `calc_stats` results (a
`raises` component means the whole call raises). -/
def aggregate_by_era (analyses : List CommitAnalysis) :
    PyDictResult NlpEraStats × PyDictResult NlpEraStats :=
  (nlp_calc_stats (analyses.filter fun a => a.era == "pre-ai"),
   nlp_calc_stats (analyses.filter fun a => a.era == "post-ai"))

/-- A repository whose commit fetch produced nothing: `analyze_repo` builds
exactly this value when `fetch_commits` returns no commits. -/
def zeroCommitAnalysis : CommitAnalysis := { repo := "octo/empty", era := "pre-ai" }

/-- C3: a `CommitAnalysis` with `total_commits = 0` returns 0 from all five
per-100-commits ratios, and the guarded per-100 entries of `calc_stats` are 0
whenever the commit counts sum to 0 — but `aggregate_by_era` over a
nonempty era whose commit counts sum to 0 raises `StatisticsError`
(`statistics.mean` of the empty filtered message-length list), contradicting
the claim's `no error is raised`. -/
theorem zero_commit_ratios :
    (zeroCommitAnalysis.debt_ratio = 0 ∧ zeroCommitAnalysis.bug_ratio = 0 ∧
        zeroCommitAnalysis.revert_ratio = 0 ∧
        zeroCommitAnalysis.frustration_ratio = 0 ∧
        zeroCommitAnalysis.positive_ratio = 0) ∧
      (∀ signalTotal : Nat, per100 signalTotal 0 = 0) ∧
      aggregate_by_era [zeroCommitAnalysis] = (PyDictResult.raises, PyDictResult.empty) := by
  refine ⟨by decide, fun signalTotal => rfl, by decide⟩

/-! ### `find_extremes` (github_debt_analysis.py) -/

/-- `created_at.strftime("%Y-%m-%d")`. -/
def strftimeDate (d : Datetime) : String :=
  String.mk (pad 4 d.year ++ '-' :: (pad 2 d.month ++ '-' :: pad 2 d.day))

/-- The summary dict `find_extremes.repo_summary` builds per repository. -/
structure RepoSummary where
  name : String
  stars : Int
  open_issues : Int
  issues_per_1k_stars : ℚ
  created : String
  era : String
deriving DecidableEq, Repr

def repo_summary (r : RepoMetrics) : RepoSummary :=
  { name := r.full_name
    stars := r.stars
    open_issues := r.open_issues
    issues_per_1k_stars := pyRound 2 r.issues_per_1k_stars
    created := strftimeDate r.created_at
    era := r.era }

/-- The comparison `sorted(repos, key=lambda r: r.issues_per_1k_stars,
reverse=True)` sorts by (a stable descending sort, which the insertion sort
below realizes). -/
def ratioGE (a b : RepoMetrics) : Prop :=
  b.issues_per_1k_stars ≤ a.issues_per_1k_stars

instance : DecidableRel ratioGE := fun a b =>
  inferInstanceAs (Decidable (b.issues_per_1k_stars ≤ a.issues_per_1k_stars))

instance : IsTotal RepoMetrics ratioGE := ⟨fun _ _ => le_total _ _⟩

instance : IsTrans RepoMetrics ratioGE := ⟨fun _ _ _ hab hbc => le_trans hbc hab⟩

def sortByRatioDesc (repos : List RepoMetrics) : List RepoMetrics :=
  repos.insertionSort ratioGE

/-- Python's tail slice `l[-n:]` (for `n = 0` it is `l[0:]`, the whole
list). -/
def pyLastSlice {α : Type} (l : List α) (n : Nat) : List α :=
  if n = 0 then l else l.drop (l.length - n)

/-- `find_extremes(repos, top_n)`: repositories with highest and lowest
issue ratios (`highest_debt_ratio`, `lowest_debt_ratio`). -/
def find_extremes (repos : List RepoMetrics) (top_n : Nat) :
    List RepoSummary × List RepoSummary :=
  let sorted_by_ratio := sortByRatioDesc repos
  ((sorted_by_ratio.take top_n).map repo_summary,
   ((pyLastSlice sorted_by_ratio top_n).reverse).map repo_summary)

def mkExtremesDemoRepo (nm : String) (issues : Int) : RepoMetrics :=
  { name := nm, full_name := nm, stars := 1000, open_issues := issues,
    created_at := ⟨2020, 6, 1, 0, 0, 0, 0, some 0⟩, language := some ("Rust"),
    forks := 0 }

/-- Five repositories whose issue ratios are `[10, 5, 8, 1, 20]`. -/
def extremesDemoRepos : List RepoMetrics :=
  [ mkExtremesDemoRepo ("octo/r10") 10,
    mkExtremesDemoRepo ("octo/r5") 5,
    mkExtremesDemoRepo ("octo/r8") 8,
    mkExtremesDemoRepo ("octo/r1") 1,
    mkExtremesDemoRepo ("octo/r20") 20 ]

theorem roundHalfEven_intCast (z : Int) : roundHalfEven ((z : ℚ)) = z := by
  unfold roundHalfEven
  rw [Int.floor_intCast]
  norm_num

theorem pyRound_intCast (n : Nat) (z : Int) : pyRound n ((z : ℚ)) = (z : ℚ) := by
  unfold pyRound
  rw [show ((z : ℚ) * 10 ^ n) = (((z * 10 ^ n : Int) : ℚ)) by push_cast; ring,
    roundHalfEven_intCast]
  push_cast
  rw [mul_div_assoc, div_self (by positivity), mul_one]

theorem pyRound_den_one {q : ℚ} (n : Nat) (h : q.den = 1) : pyRound n q = q := by
  have e : q = ((q.num : ℚ)) := by
    rw [← Rat.num_div_den q, h]
    norm_num
  rw [e, pyRound_intCast]

/-- C4: `find_extremes` sorts descending by `issues_per_1k_stars`; the
highest list is the first `top_n` of that order and the lowest list is the
last `top_n` reversed (i.e. the first `top_n` of the ascending order), so
both read most extreme first; on the five demo repositories with ratios
`[10, 5, 8, 1, 20]` and `n = 2` the highest ratios are `[20, 10]` and the
lowest `[1, 5]`, in those orders. -/
theorem find_extremes_spec :
    (∀ repos : List RepoMetrics, List.Sorted ratioGE (sortByRatioDesc repos)) ∧
      (∀ (repos : List RepoMetrics) (n : Nat),
        (find_extremes repos n).1 = ((sortByRatioDesc repos).map repo_summary).take n ∧
          (n ≠ 0 → (find_extremes repos n).2
            = ((sortByRatioDesc repos).reverse.map repo_summary).take n)) ∧
      ((find_extremes extremesDemoRepos 2).1.map RepoSummary.issues_per_1k_stars
          = [20, 10] ∧
        (find_extremes extremesDemoRepos 2).2.map RepoSummary.issues_per_1k_stars
          = [1, 5] ∧
        (find_extremes extremesDemoRepos 2).1.map RepoSummary.name
          = ["octo/r20", "octo/r10"] ∧
        (find_extremes extremesDemoRepos 2).2.map RepoSummary.name
          = ["octo/r1", "octo/r5"]) := by
  refine ⟨fun repos => List.sorted_insertionSort ratioGE repos,
    fun repos n => ⟨?_, ?_⟩, ?_⟩
  · show ((sortByRatioDesc repos).take n).map repo_summary = _
    rw [List.map_take]
  · intro hn
    show ((pyLastSlice (sortByRatioDesc repos) n).reverse).map repo_summary = _
    unfold pyLastSlice
    rw [if_neg hn, List.reverse_drop, List.map_take, List.take_eq_take,
      List.length_map, List.length_reverse]
    omega
  · norm_num [find_extremes, sortByRatioDesc, extremesDemoRepos, List.insertionSort,
      List.orderedInsert, ratioGE, mkExtremesDemoRepo, RepoMetrics.issues_per_1k_stars,
      pyLastSlice, repo_summary, pyRound_den_one]

/-! ### Rate limit handling (both fetchers)

After each request, `search_repos` (github_debt_analysis.py) and
`fetch_commits` (commit_nlp_analysis.py) run the same block: read the
`X-RateLimit-Remaining` header (default 10 when absent), and if it is below
5 read `X-RateLimit-Reset` (default 0), sleep
`max(reset_time - time.time(), 0) + 1` seconds.  `rate_limit_wait` is that
block as a function of the two parsed headers and the current clock:
`some w` means the fetcher blocks for `w` seconds, `none` that it does not
sleep for rate limiting. -/

def rate_limit_wait (remainingHeader resetHeader : Option Int) (now : ℚ) : Option ℚ :=
  let remaining := remainingHeader.getD 10
  if remaining < 5 then
    let reset_time := resetHeader.getD 0
    some (max ((reset_time : ℚ) - now) 0 + 1)
  else none

/-- C8: whenever the parsed remaining-calls header is below 5 the fetcher
blocks for `max(reset - now, 0) + 1` seconds (a nonnegative wait of at least
the 1-second margin, and enough to reach the reset time); with remaining
quota 5 or more — in particular when the header is absent and defaults to
10 — it does not sleep for rate limiting. -/
theorem rate_limit_wait_spec :
    (∀ (remainingHeader resetHeader : Option Int) (now : ℚ),
        remainingHeader.getD 10 < 5 →
          rate_limit_wait remainingHeader resetHeader now
              = some (max (((resetHeader.getD 0 : Int) : ℚ) - now) 0 + 1) ∧
            ∀ w ∈ rate_limit_wait remainingHeader resetHeader now,
              1 ≤ w ∧ ((resetHeader.getD 0 : Int) : ℚ) - now ≤ w) ∧
      (∀ (remainingHeader resetHeader : Option Int) (now : ℚ),
        5 ≤ remainingHeader.getD 10 →
          rate_limit_wait remainingHeader resetHeader now = none) ∧
      (∀ (resetHeader : Option Int) (now : ℚ),
        rate_limit_wait none resetHeader now = none) := by
  refine ⟨fun rh sh now h => ?_, fun rh sh now h => ?_, fun sh now => rfl⟩
  · refine ⟨by unfold rate_limit_wait; rw [if_pos h], fun w hw => ?_⟩
    simp only [rate_limit_wait, if_pos h, Option.mem_def, Option.some.injEq] at hw
    subst hw
    constructor
    · have : (0 : ℚ) ≤ max (((sh.getD 0 : Int) : ℚ) - now) 0 := le_max_right _ _
      linarith
    · have : ((sh.getD 0 : Int) : ℚ) - now ≤ max (((sh.getD 0 : Int) : ℚ) - now) 0 :=
        le_max_left _ _
      linarith
  · unfold rate_limit_wait
    rw [if_neg (by omega)]

/-! ### `fetch_popular_repos` (github_debt_analysis.py)

The GitHub search service is a function from the query parameters
`search_repos` sends to `none` (an HTTP error / network exception, caught by
the per-query `try` blocks) or `some items`.  `parse_repo` is the pure
mapping from one raw search record to `RepoMetrics`; a parse failure inside
the list comprehension raises before `extend`, so the accumulated list is
left unchanged, like an HTTP error. -/

structure RawItem where
  name : String
  full_name : String
  stargazers_count : Int
  open_issues_count : Int
  created_at : String
  language : Option String
  forks_count : Int
  updated_at : Option String
deriving DecidableEq, Repr

/-- Python's `str.replace` for a single character pattern (the code only
replaces `"Z"` with `"+00:00"`). -/
def replaceChar (s : String) (c : Char) (rep : String) : String :=
  String.mk (s.data.foldr (fun ch acc => if ch = c then rep.data ++ acc else ch :: acc) [])

/-- `parse_repo`: parse a GitHub API search record into `RepoMetrics`. -/
def parse_repo (data : RawItem) : Option RepoMetrics :=
  (match data.updated_at with
    | none => some none
    | some u => (fromisoformat (replaceChar u 'Z' ("+00:00")).data).map some).bind
    fun updated =>
      (fromisoformat (replaceChar data.created_at 'Z' ("+00:00")).data).map fun created =>
        { name := data.name
          full_name := data.full_name
          stars := data.stargazers_count
          open_issues := data.open_issues_count
          created_at := created
          language := data.language
          forks := data.forks_count
          updated_at := updated }

structure SearchQuery where
  q : String
  sort : String
  order : String
  per_page : Nat
  page : Nat
deriving DecidableEq, Repr

/-- `search_repos(query, sort="stars", per_page, page)` issues one GET with
these parameters and returns the `items` of the response. -/
def search_repos (server : SearchQuery → Option (List RawItem)) (query : String)
    (per_page : Nat) (page : Nat) : Option (List RawItem) :=
  server { q := query, sort := "stars", order := "desc",
           per_page := per_page, page := page }

def query_pre (lang : String) (min_stars : Int) : String :=
  "language:" ++ lang ++ " stars:>" ++ toString min_stars ++ " created:<2022-01-01"

def query_post (lang : String) (min_stars : Int) : String :=
  "language:" ++ lang ++ " stars:>" ++ toString min_stars ++ " created:>=2022-01-01"

def defaultLanguages : List String :=
  ["javascript", "python", "typescript", "java", "go", "rust"]

/-- The body of `fetch_popular_repos`'s per-language iteration: one pre-AI
query and one post-AI query, each a single page-1 request of 30 records,
each wrapped in `try`/`except` that keeps `repos` unchanged on failure. -/
def fetch_lang_step (server : SearchQuery → Option (List RawItem)) (min_stars : Int)
    (lang : String) (repos : List RepoMetrics) : List RepoMetrics :=
  let repos :=
    match search_repos server (query_pre lang min_stars) 30 1 with
    | none => repos
    | some items =>
        match items.mapM parse_repo with
        | none => repos
        | some parsed => repos ++ parsed
  match search_repos server (query_post lang min_stars) 30 1 with
  | none => repos
  | some items =>
      match items.mapM parse_repo with
      | none => repos
      | some parsed => repos ++ parsed

def fetch_loop (server : SearchQuery → Option (List RawItem)) (min_stars : Int)
    (max_repos : Nat) : List String → List RepoMetrics → List RepoMetrics
  | [], repos => repos
  | lang :: rest, repos =>
      let repos := fetch_lang_step server min_stars lang repos
      if max_repos ≤ repos.length then repos
      else fetch_loop server min_stars max_repos rest repos

/-- `fetch_popular_repos(min_stars, languages, max_repos)`: iterate the
languages, break once `len(repos) >= max_repos`, return `repos[:max_repos]`. -/
def fetch_popular_repos (server : SearchQuery → Option (List RawItem)) (min_stars : Int)
    (languages : List String) (max_repos : Nat) : List RepoMetrics :=
  (fetch_loop server min_stars max_repos languages []).take max_repos

def demoRawItem : RawItem :=
  { name := "demo", full_name := "octo/demo", stargazers_count := 2000,
    open_issues_count := 5, created_at := "2020-01-01T00:00:00Z",
    language := some ("Python"), forks_count := 1, updated_at := none }

/-- A search service on which every query of every page returns 30 records:
no page is ever empty and no request fails. -/
def server30 : SearchQuery → Option (List RawItem) :=
  fun _ => some (List.replicate 30 demoRawItem)

/-- `server30` restricted to page 1: pages beyond the first fail.  It agrees
with `server30` on every page-1 query. -/
def server30Page1 : SearchQuery → Option (List RawItem) := fun query =>
  if query.page = 1 then server30 query else none

/-- C9 counterexample: against a server whose pages are never empty and with
`max_repos = 100` not yet reached, the repository fetch with the single
language `python` stops after one page-1 query per era and returns 60
repositories — it does not keep requesting pages until an empty page or the
maximum, although page 2 of the same query would have returned 30 more
records. -/
theorem fetch_pagination_counterexample :
    (fetch_popular_repos server30 1000 ["python"] 100).length = 60 ∧
      (fetch_popular_repos server30 1000 ["python"] 100).length ≠ 100 ∧
      server30 { q := query_pre ("python") 1000, sort := "stars", order := "desc",
                 per_page := 30, page := 2 }
        = some (List.replicate 30 demoRawItem) := by
  refine ⟨by decide, by decide, rfl⟩

/-- C9 (amended): `fetch_popular_repos` issues one page-1 search per
language and era, stopping the language loop once the accumulated count
reaches the requested maximum and truncating the result to it: the returned
list never exceeds the maximum, and the result depends only on the server's
page-1 responses (no later page is ever consulted, and an empty page is
never waited for). -/
theorem fetch_popular_repos_spec :
    (∀ (server : SearchQuery → Option (List RawItem)) (min_stars : Int)
        (languages : List String) (max_repos : Nat),
        (fetch_popular_repos server min_stars languages max_repos).length ≤ max_repos) ∧
      (∀ (server server2 : SearchQuery → Option (List RawItem)) (min_stars : Int)
          (languages : List String) (max_repos : Nat),
        (∀ q : SearchQuery, q.page = 1 → server q = server2 q) →
          fetch_popular_repos server min_stars languages max_repos
            = fetch_popular_repos server2 min_stars languages max_repos) := by
  constructor
  · intro server min_stars languages max_repos
    unfold fetch_popular_repos
    simp [List.length_take]
  · intro server server2 min_stars languages max_repos h
    unfold fetch_popular_repos
    have hstep : ∀ lang acc, fetch_lang_step server min_stars lang acc
        = fetch_lang_step server2 min_stars lang acc := by
      intro lang acc
      unfold fetch_lang_step search_repos
      rw [h { q := query_pre lang min_stars, sort := "stars", order := "desc",
              per_page := 30, page := 1 } rfl,
          h { q := query_post lang min_stars, sort := "stars", order := "desc",
              per_page := 30, page := 1 } rfl]
    have hloop : ∀ langs acc, fetch_loop server min_stars max_repos langs acc
        = fetch_loop server2 min_stars max_repos langs acc := by
      intro langs
      induction langs with
      | nil => intro acc; rfl
      | cons lang rest ih =>
          intro acc
          simp only [fetch_loop, hstep, ih]
    rw [hloop]

/-- Witness for C9's amended theorem: at the concrete servers `server30` and
`server30Page1` (which agree on page 1), both conjuncts are discharged. -/
theorem fetch_popular_repos_spec_witness :
    (fetch_popular_repos server30 1000 ["python"] 100).length ≤ 100 ∧
      fetch_popular_repos server30 1000 ["python"] 100
        = fetch_popular_repos server30Page1 1000 ["python"] 100 :=
  ⟨fetch_popular_repos_spec.1 server30 1000 ["python"] 100,
   fetch_popular_repos_spec.2 server30 server30Page1 1000 ["python"] 100
     (fun q hq => by unfold server30Page1; rw [if_pos hq])⟩

/-! ### `analyze_by_era`, `analyze_by_language` and `generate_report`
(github_debt_analysis.py)

`generate_report` reads the clock twice conceptually: once for the
`Generated:` header and, through the `age_days` property, for every
issues-per-year statistic; the embedding passes one instant `now` for both.
The rendering of a Python `float` is modelled for the values the report
holds after `round(..., ndigits)`: sign, integer part, decimal point and the
terminating decimal expansion (`"100.0"`, `"2.67"`), which is what `str`
prints for such floats. -/

structure RepoEraStats where
  count : Nat
  avg_issues_per_1k_stars : ℚ
  median_issues_per_1k_stars : ℚ
  std_dev_ratio : ℚ
  total_stars : Int
  total_open_issues : Int
  avg_stars : ℚ
  avg_open_issues : ℚ
  avg_issues_per_year : ℚ
  median_issues_per_year : ℚ
  close_rates : Option (ℚ × ℚ)
  contributors : Option (ℚ × ℚ)
deriving DecidableEq, Repr

/-- `calc_stats` of `analyze_by_era` in `github_debt_analysis.py`; `none`
models the `{"count": 0}` dict returned for an empty era partition.
`close_rates` / `contributors` are the conditionally present
avg/median pairs. -/
def repo_calc_stats (repo_list : List RepoMetrics) (now : Datetime) :
    Option RepoEraStats :=
  if repo_list = [] then none
  else
    let ratios := repo_list.map RepoMetrics.issues_per_1k_stars
    let stars := repo_list.map fun r => ((r.stars : ℚ))
    let issues := repo_list.map fun r => ((r.open_issues : ℚ))
    let issues_per_year := repo_list.map fun r => r.issues_per_year now
    let close_rates :=
      (repo_list.filter fun r => 0 < r.total_issues).map RepoMetrics.issue_close_rate
    let contributors :=
      (repo_list.filter fun r => 0 < r.contributors).map fun r => ((r.contributors : ℚ))
    some
      { count := repo_list.length
        avg_issues_per_1k_stars := pyRound 2 (meanVal ratios)
        median_issues_per_1k_stars := pyRound 2 (statistics_median ratios)
        std_dev_ratio := if 1 < ratios.length then stdevRound2 ratios else 0
        total_stars := (repo_list.map RepoMetrics.stars).sum
        total_open_issues := (repo_list.map RepoMetrics.open_issues).sum
        avg_stars := pyRound 0 (meanVal stars)
        avg_open_issues := pyRound 0 (meanVal issues)
        avg_issues_per_year := pyRound 2 (meanVal issues_per_year)
        median_issues_per_year := pyRound 2 (statistics_median issues_per_year)
        close_rates :=
          if close_rates = [] then none
          else some (pyRound 1 (meanVal close_rates), pyRound 1 (statistics_median close_rates))
        contributors :=
          if contributors = [] then none
          else some (pyRound 0 (meanVal contributors), pyRound 0 (statistics_median contributors)) }

def analyze_by_era (repos : List RepoMetrics) (now : Datetime) :
    Option RepoEraStats × Option RepoEraStats :=
  (repo_calc_stats (repos.filter fun r => r.era == "pre-ai") now,
   repo_calc_stats (repos.filter fun r => r.era == "post-ai") now)

/-- `repo.language or "Unknown"` (Python `or`: `None` and the empty string
both fall back). -/
def langOf (r : RepoMetrics) : String :=
  match r.language with
  | none => "Unknown"
  | some s => if s = "" then "Unknown" else s

def langKeys (repos : List RepoMetrics) : List String :=
  repos.foldl (fun acc r => if acc.contains (langOf r) then acc else acc ++ [langOf r]) []

/-- `analyze_by_language`: entries `(language, count, avg, median)` in
first-encounter order, groups of fewer than 3 repositories dropped. -/
def analyze_by_language (repos : List RepoMetrics) :
    List (String × Nat × ℚ × ℚ) :=
  (langKeys repos).filterMap fun lang =>
    let group := repos.filter fun r => langOf r == lang
    if group.length < 3 then none
    else
      let ratios := group.map RepoMetrics.issues_per_1k_stars
      some (lang, group.length, pyRound 2 (meanVal ratios),
        pyRound 2 (statistics_median ratios))

def langAvgGE (a b : String × Nat × ℚ × ℚ) : Prop := b.2.2.1 ≤ a.2.2.1

instance : DecidableRel langAvgGE := fun a b =>
  inferInstanceAs (Decidable (b.2.2.1 ≤ a.2.2.1))

/-- `sorted(lang_analysis.items(), key=..["avg_issues_per_1k_stars"],
reverse=True)`. -/
def sortLangStatsDesc (l : List (String × Nat × ℚ × ℚ)) :
    List (String × Nat × ℚ × ℚ) :=
  l.insertionSort langAvgGE

/-! ### Number rendering -/

def natCharsOrZero (n : Nat) : List Char := if n = 0 then ['0'] else natToChars n

/-- `str` of a Python int. -/
def natPyStr (n : Nat) : String := String.mk (natCharsOrZero n)

/-- Decimal expansion digits of `rem / den` (long division; the fuel bounds
the expansion, which terminates for every value the report prints since they
are rounded to at most two decimal places). -/
def fracDigitChars (fuel rem den : Nat) : List Char :=
  match fuel with
  | 0 => []
  | f + 1 =>
      if rem = 0 then []
      else digitChar (rem * 10 / den) :: fracDigitChars f (rem * 10 % den) den

/-- `str` of the Python float holding the exactly representable value `q`:
sign, integer part, point, decimal digits (`"3.0"` for integers, as Python
prints). -/
def ratToPyStr (q : ℚ) : String :=
  let sign : List Char := if q < 0 then ['-'] else []
  let a : Nat := q.num.natAbs
  let den : Nat := q.den
  let ip := a / den
  let rem := a % den
  let fracs := if rem = 0 then ['0'] else fracDigitChars 30 rem den
  String.mk (sign ++ (natCharsOrZero ip ++ '.' :: fracs))

/-- Comma grouping of decimal digit characters given least significant
first. -/
def commaGroupRev : List Char → List Char
  | [] => []
  | [d] => [d]
  | [d1, d2] => [d1, d2]
  | [d1, d2, d3] => [d1, d2, d3]
  | d1 :: d2 :: d3 :: d4 :: rest => d1 :: d2 :: d3 :: ',' :: commaGroupRev (d4 :: rest)

/-- The `{:,}` format of a Python int. -/
def intWithCommas (z : Int) : String :=
  String.mk ((if z < 0 then ['-'] else [])
    ++ (commaGroupRev (natCharsOrZero z.natAbs).reverse).reverse)

/-- `strftime("%Y-%m-%d %H:%M:%S")` (the `Generated:` header). -/
def strftimeDateTime (d : Datetime) : String :=
  String.mk (pad 4 d.year ++ '-' :: (pad 2 d.month ++ '-' :: (pad 2 d.day ++ ' ' ::
    (pad 2 d.hour ++ ':' :: (pad 2 d.minute ++ ':' :: pad 2 d.second)))))

/-! ### The report lines -/

/-- `pre.get("count", 0)` rendered (`{"count": 0}` shows `0`). -/
def countCell : Option RepoEraStats → String
  | none => natPyStr 0
  | some st => natPyStr st.count

/-- A `pre.get(key, "N/A")` float cell. -/
def qCell (f : RepoEraStats → ℚ) : Option RepoEraStats → String
  | none => "N/A"
  | some st => ratToPyStr (f st)

/-- A conditionally present float cell (`avg_close_rate`,
`avg_contributors`): absent both for the empty era dict and when the source
dict never got the key. -/
def optPairCellFst (f : RepoEraStats → Option (ℚ × ℚ)) :
    Option RepoEraStats → String
  | none => "N/A"
  | some st =>
      match f st with
      | none => "N/A"
      | some pr => ratToPyStr pr.1

/-- A `{pre.get(key, 0):,}` int cell. -/
def intCommaCell (f : RepoEraStats → Int) : Option RepoEraStats → String
  | none => intWithCommas 0
  | some st => intWithCommas (f st)

/-- One row of the era comparison table. -/
def eraRow (label : String) (cell : Option RepoEraStats → String)
    (pre post : Option RepoEraStats) : String :=
  "| " ++ label ++ " | " ++ cell pre ++ " | " ++ cell post ++ " |"

def lineGenerated (now : Datetime) : String :=
  "Generated: " ++ strftimeDateTime now

def avgRatioOrZero : Option RepoEraStats → ℚ
  | none => 0
  | some st => st.avg_issues_per_1k_stars

def lineKeyFinding (pre post : Option RepoEraStats) : String :=
  "**Key Finding:** " ++
    (if avgRatioOrZero post < avgRatioOrZero pre then
      "Pre-AI era repos show HIGHER issue ratios, suggesting debt existed before AI."
    else "Post-AI era shows higher ratios - but sample size and maturity matter.")

def langRow (entry : String × Nat × ℚ × ℚ) : String :=
  "| " ++ entry.1 ++ " | " ++ natPyStr entry.2.1 ++ " | " ++ ratToPyStr entry.2.2.1
    ++ " | " ++ ratToPyStr entry.2.2.2 ++ " |"

def extremeRow (r : RepoSummary) : String :=
  "| " ++ r.name ++ " | " ++ intWithCommas r.stars ++ " | "
    ++ intWithCommas r.open_issues ++ " | " ++ ratToPyStr r.issues_per_1k_stars
    ++ " | " ++ r.created ++ " | " ++ r.era ++ " |"

/-- The markdown report of `generate_report`, line by line (the report
string is these lines joined by newlines). -/
def report_lines (repos : List RepoMetrics) (now : Datetime) : List String :=
  let era_analysis := analyze_by_era repos now
  let lang_analysis := analyze_by_language repos
  let extremes := find_extremes repos 10
  let pre := era_analysis.1
  let post := era_analysis.2
  [ "# GitHub Technical Debt Analysis Report",
    "",
    lineGenerated now,
    "Total Repositories Analyzed: " ++ natPyStr repos.length,
    "",
    "## Executive Summary",
    "",
    "This analysis examines the relationship between repository popularity (stars) and ",
    "technical debt indicators (open issues) across different time periods.",
    "",
    lineKeyFinding pre post,
    "",
    "---",
    "",
    "## Era Comparison",
    "",
    "| Metric | Pre-AI Era (<2022) | Post-AI Era (‚â•2022) |",
    "|--------|-------------------|---------------------|",
    eraRow ("Repos Analyzed") countCell pre post,
    eraRow ("Avg Issues per 1K Stars") (qCell RepoEraStats.avg_issues_per_1k_stars) pre post,
    eraRow ("Median Issues per 1K Stars") (qCell RepoEraStats.median_issues_per_1k_stars) pre post,
    eraRow ("Avg Issues per Year") (qCell RepoEraStats.avg_issues_per_year) pre post,
    eraRow ("Median Issues per Year") (qCell RepoEraStats.median_issues_per_year) pre post,
    eraRow ("Avg Issue Close Rate %") (optPairCellFst RepoEraStats.close_rates) pre post,
    eraRow ("Avg Contributors") (optPairCellFst RepoEraStats.contributors) pre post,
    eraRow ("Std Deviation") (qCell RepoEraStats.std_dev_ratio) pre post,
    eraRow ("Total Stars") (intCommaCell RepoEraStats.total_stars) pre post,
    eraRow ("Total Open Issues") (intCommaCell RepoEraStats.total_open_issues) pre post,
    "",
    "### Interpretation",
    "",
    "- **Issues per 1K Stars** = normalized measure of \"problems per unit of popularity\"",
    "- Higher values suggest more maintenance burden relative to community size",
    "- Pre-AI era projects have had more time to accumulate issues, but also more time to close them",
    "",
    "---",
    "",
    "## Analysis by Language",
    "",
    "| Language | Repos | Avg Issues/1K Stars | Median |",
    "|----------|-------|---------------------|--------|" ]
  ++ (sortLangStatsDesc lang_analysis).map langRow
  ++ [ "",
    "---",
    "",
    "## Highest Debt Ratios (Most Issues per Star)",
    "",
    "| Repository | Stars | Open Issues | Ratio | Created | Era |",
    "|------------|-------|-------------|-------|---------|-----|" ]
  ++ extremes.1.map extremeRow
  ++ [ "",
    "---",
    "",
    "## Lowest Debt Ratios (Fewest Issues per Star)",
    "",
    "| Repository | Stars | Open Issues | Ratio | Created | Era |",
    "|------------|-------|-------------|-------|---------|-----|" ]
  ++ extremes.2.map extremeRow
  ++ [ "",
    "---",
    "",
    "## Methodology Notes",
    "",
    "1. **Data Source**: GitHub Search API",
    "2. **Minimum Stars**: 1,000 (filters out abandoned/toy projects)",
    "3. **Era Definition**: ",
    "   - Pre-AI: Created before January 2022",
    "   - Post-AI: Created January 2022 or later (ChatGPT/Copilot mainstream)",
    "4. **Metric**: Open issues count (closed issues indicate healthy maintenance)",
    "5. **Limitations**:",
    "   - Issue count includes feature requests, not just bugs",
    "   - Older repos have more time to accumulate community",
    "   - Popular repos may attract more issue reports simply due to visibility",
    "",
    "## Conclusion",
    "",
    "Technical debt, as measured by issue accumulation, has been a persistent challenge ",
    "in software development long before AI coding tools existed. While AI may introduce",
    "new patterns of debt, the fundamental problem of maintenance burden is not new.",
    "" ]

/-- The report as `generate_report` returns it. -/
def generate_report (repos : List RepoMetrics) (now : Datetime) : String :=
  String.intercalate "\n" (report_lines repos now)

/-! ### How the report depends on the clock (C10) -/

def ipyUpdate (avg med : ℚ) (st : RepoEraStats) : RepoEraStats :=
  { st with avg_issues_per_year := avg, median_issues_per_year := med }

/-- Moving the clock changes exactly the two issues-per-year entries of the
era statistics. -/
theorem repo_calc_stats_now (l : List RepoMetrics) (now now2 : Datetime) :
    repo_calc_stats l now2
      = (repo_calc_stats l now).map
          (ipyUpdate (pyRound 2 (meanVal (l.map fun r => r.issues_per_year now2)))
            (pyRound 2 (statistics_median (l.map fun r => r.issues_per_year now2)))) := by
  unfold repo_calc_stats
  by_cases h : l = []
  · simp [h]
  · rw [if_neg h, if_neg h]
    simp only [Option.map_some']
    rfl

theorem countCell_ipyUpdate (a m : ℚ) (o : Option RepoEraStats) :
    countCell (o.map (ipyUpdate a m)) = countCell o := by cases o <;> rfl

theorem qCell_avg1k_ipyUpdate (a m : ℚ) (o : Option RepoEraStats) :
    qCell RepoEraStats.avg_issues_per_1k_stars (o.map (ipyUpdate a m))
      = qCell RepoEraStats.avg_issues_per_1k_stars o := by cases o <;> rfl

theorem qCell_med1k_ipyUpdate (a m : ℚ) (o : Option RepoEraStats) :
    qCell RepoEraStats.median_issues_per_1k_stars (o.map (ipyUpdate a m))
      = qCell RepoEraStats.median_issues_per_1k_stars o := by cases o <;> rfl

theorem qCell_std_ipyUpdate (a m : ℚ) (o : Option RepoEraStats) :
    qCell RepoEraStats.std_dev_ratio (o.map (ipyUpdate a m))
      = qCell RepoEraStats.std_dev_ratio o := by cases o <;> rfl

theorem optPairCellFst_close_ipyUpdate (a m : ℚ) (o : Option RepoEraStats) :
    optPairCellFst RepoEraStats.close_rates (o.map (ipyUpdate a m))
      = optPairCellFst RepoEraStats.close_rates o := by cases o <;> rfl

theorem optPairCellFst_contrib_ipyUpdate (a m : ℚ) (o : Option RepoEraStats) :
    optPairCellFst RepoEraStats.contributors (o.map (ipyUpdate a m))
      = optPairCellFst RepoEraStats.contributors o := by cases o <;> rfl

theorem intCommaCell_stars_ipyUpdate (a m : ℚ) (o : Option RepoEraStats) :
    intCommaCell RepoEraStats.total_stars (o.map (ipyUpdate a m))
      = intCommaCell RepoEraStats.total_stars o := by cases o <;> rfl

theorem intCommaCell_issues_ipyUpdate (a m : ℚ) (o : Option RepoEraStats) :
    intCommaCell RepoEraStats.total_open_issues (o.map (ipyUpdate a m))
      = intCommaCell RepoEraStats.total_open_issues o := by cases o <;> rfl

theorem avgRatioOrZero_ipyUpdate (a m : ℚ) (o : Option RepoEraStats) :
    avgRatioOrZero (o.map (ipyUpdate a m)) = avgRatioOrZero o := by cases o <;> rfl

def epochInstant : Datetime := ⟨1970, 1, 1, 0, 0, 0, 0, none⟩

/-- C10 (amended): besides the `Generated:` line (index 2), the
era-comparison rows `Avg Issues per Year` and `Median Issues per Year`
(indices 21 and 22, through `age_days` reading the clock) are the only
parts of the report that depend on the current time: every other line is a
function of the repository list alone. -/
theorem generate_report_now_dependence :
    ∀ repos : List RepoMetrics, ∃ A B C : List String,
      A.length = 2 ∧ B.length = 18 ∧
        ∀ now : Datetime,
          report_lines repos now
            = A ++ lineGenerated now :: (B
                ++ eraRow ("Avg Issues per Year") (qCell RepoEraStats.avg_issues_per_year)
                    (analyze_by_era repos now).1 (analyze_by_era repos now).2
                  :: eraRow ("Median Issues per Year")
                    (qCell RepoEraStats.median_issues_per_year)
                    (analyze_by_era repos now).1 (analyze_by_era repos now).2
                  :: C) := by
  intro repos
  refine ⟨[ "# GitHub Technical Debt Analysis Report", "" ],
    [ "Total Repositories Analyzed: " ++ natPyStr repos.length,
      "",
      "## Executive Summary",
      "",
      "This analysis examines the relationship between repository popularity (stars) and ",
      "technical debt indicators (open issues) across different time periods.",
      "",
      lineKeyFinding (analyze_by_era repos epochInstant).1 (analyze_by_era repos epochInstant).2,
      "",
      "---",
      "",
      "## Era Comparison",
      "",
      "| Metric | Pre-AI Era (<2022) | Post-AI Era (‚â•2022) |",
      "|--------|-------------------|---------------------|",
      eraRow ("Repos Analyzed") countCell (analyze_by_era repos epochInstant).1
        (analyze_by_era repos epochInstant).2,
      eraRow ("Avg Issues per 1K Stars") (qCell RepoEraStats.avg_issues_per_1k_stars)
        (analyze_by_era repos epochInstant).1 (analyze_by_era repos epochInstant).2,
      eraRow ("Median Issues per 1K Stars") (qCell RepoEraStats.median_issues_per_1k_stars)
        (analyze_by_era repos epochInstant).1 (analyze_by_era repos epochInstant).2 ],
    [ eraRow ("Avg Issue Close Rate %") (optPairCellFst RepoEraStats.close_rates)
        (analyze_by_era repos epochInstant).1 (analyze_by_era repos epochInstant).2,
      eraRow ("Avg Contributors") (optPairCellFst RepoEraStats.contributors)
        (analyze_by_era repos epochInstant).1 (analyze_by_era repos epochInstant).2,
      eraRow ("Std Deviation") (qCell RepoEraStats.std_dev_ratio)
        (analyze_by_era repos epochInstant).1 (analyze_by_era repos epochInstant).2,
      eraRow ("Total Stars") (intCommaCell RepoEraStats.total_stars)
        (analyze_by_era repos epochInstant).1 (analyze_by_era repos epochInstant).2,
      eraRow ("Total Open Issues") (intCommaCell RepoEraStats.total_open_issues)
        (analyze_by_era repos epochInstant).1 (analyze_by_era repos epochInstant).2,
      "",
      "### Interpretation",
      "",
      "- **Issues per 1K Stars** = normalized measure of \"problems per unit of popularity\"",
      "- Higher values suggest more maintenance burden relative to community size",
      "- Pre-AI era projects have had more time to accumulate issues, but also more time to close them",
      "",
      "---",
      "",
      "## Analysis by Language",
      "",
      "| Language | Repos | Avg Issues/1K Stars | Median |",
      "|----------|-------|---------------------|--------|" ]
    ++ (sortLangStatsDesc (analyze_by_language repos)).map langRow
    ++ [ "",
      "---",
      "",
      "## Highest Debt Ratios (Most Issues per Star)",
      "",
      "| Repository | Stars | Open Issues | Ratio | Created | Era |",
      "|------------|-------|-------------|-------|---------|-----|" ]
    ++ (find_extremes repos 10).1.map extremeRow
    ++ [ "",
      "---",
      "",
      "## Lowest Debt Ratios (Fewest Issues per Star)",
      "",
      "| Repository | Stars | Open Issues | Ratio | Created | Era |",
      "|------------|-------|-------------|-------|---------|-----|" ]
    ++ (find_extremes repos 10).2.map extremeRow
    ++ [ "",
      "---",
      "",
      "## Methodology Notes",
      "",
      "1. **Data Source**: GitHub Search API",
      "2. **Minimum Stars**: 1,000 (filters out abandoned/toy projects)",
      "3. **Era Definition**: ",
      "   - Pre-AI: Created before January 2022",
      "   - Post-AI: Created January 2022 or later (ChatGPT/Copilot mainstream)",
      "4. **Metric**: Open issues count (closed issues indicate healthy maintenance)",
      "5. **Limitations**:",
      "   - Issue count includes feature requests, not just bugs",
      "   - Older repos have more time to accumulate community",
      "   - Popular repos may attract more issue reports simply due to visibility",
      "",
      "## Conclusion",
      "",
      "Technical debt, as measured by issue accumulation, has been a persistent challenge ",
      "in software development long before AI coding tools existed. While AI may introduce",
      "new patterns of debt, the fundamental problem of maintenance burden is not new.",
      "" ],
    rfl, rfl, fun now => ?_⟩
  simp only [report_lines, analyze_by_era]
  rw [repo_calc_stats_now (repos.filter fun r => r.era == "pre-ai") epochInstant now,
      repo_calc_stats_now (repos.filter fun r => r.era == "post-ai") epochInstant now]
  simp only [countCell_ipyUpdate, qCell_avg1k_ipyUpdate, qCell_med1k_ipyUpdate,
    qCell_std_ipyUpdate, optPairCellFst_close_ipyUpdate, optPairCellFst_contrib_ipyUpdate,
    intCommaCell_stars_ipyUpdate, intCommaCell_issues_ipyUpdate, lineKeyFinding, eraRow,
    avgRatioOrZero_ipyUpdate, List.cons_append, List.nil_append, List.append_assoc]

def reportDemoRepos : List RepoMetrics :=
  [ { name := "demo", full_name := "octo/demo", stars := 400, open_issues := 100,
      created_at := ⟨2020, 1, 1, 0, 0, 0, 0, some 0⟩, language := none, forks := 2 } ]

def nowA : Datetime := ⟨2020, 12, 31, 0, 0, 0, 0, some 0⟩

def nowB : Datetime := ⟨2021, 12, 31, 0, 0, 0, 0, some 0⟩

/-- C10 counterexample: two report runs on the same repository list at two
clock instants differ at line 21, the `Avg Issues per Year` row of the era
table (`100.0` at age 365 days versus `50.0` at age 730 days) — a line other
than the `Generated:` line, which is line 2. -/
theorem generate_report_counterexample :
    (report_lines reportDemoRepos nowA).get? 21
        = some ("| Avg Issues per Year | 100.0 | N/A |") ∧
      (report_lines reportDemoRepos nowB).get? 21
        = some ("| Avg Issues per Year | 50.0 | N/A |") ∧
      (report_lines reportDemoRepos nowA).get? 21
        ≠ (report_lines reportDemoRepos nowB).get? 21 ∧
      (21 : Nat) ≠ 2 := by
  have hq : ∀ now : Datetime,
      (report_lines reportDemoRepos now).get? 21
        = some ("| Avg Issues per Year | "
            ++ ratToPyStr (pyRound 2 (meanVal (reportDemoRepos.map fun r => r.issues_per_year now)))
            ++ " | " ++ "N/A" ++ " |") := fun now => rfl
  have hageA : RepoMetrics.age_days
      { name := "demo", full_name := "octo/demo", stars := 400, open_issues := 100,
        created_at := ⟨2020, 1, 1, 0, 0, 0, 0, some 0⟩, language := none, forks := 2 }
      nowA = 365 := by decide
  have hageB : RepoMetrics.age_days
      { name := "demo", full_name := "octo/demo", stars := 400, open_issues := 100,
        created_at := ⟨2020, 1, 1, 0, 0, 0, 0, some 0⟩, language := none, forks := 2 }
      nowB = 730 := by decide
  have hmA : meanVal (reportDemoRepos.map fun r => r.issues_per_year nowA) = 100 := by
    simp only [reportDemoRepos, List.map_cons, List.map_nil, RepoMetrics.issues_per_year,
      hageA]
    rw [show (((365 : Int) : ℚ)) / 365 = 1 by norm_num,
      max_eq_left (by norm_num : (1 : ℚ) / 10 ≤ 1)]
    simp [meanVal]
  have hmB : meanVal (reportDemoRepos.map fun r => r.issues_per_year nowB) = 50 := by
    simp only [reportDemoRepos, List.map_cons, List.map_nil, RepoMetrics.issues_per_year,
      hageB]
    rw [show (((730 : Int) : ℚ)) / 365 = 2 by norm_num,
      max_eq_left (by norm_num : (1 : ℚ) / 10 ≤ 2)]
    simp [meanVal]
    norm_num
  have hrA : (report_lines reportDemoRepos nowA).get? 21
      = some ("| Avg Issues per Year | 100.0 | N/A |") := by
    rw [hq nowA, hmA, pyRound_den_one 2 (by norm_num),
      show ratToPyStr (100 : ℚ) = "100.0" by decide]
    rfl
  have hrB : (report_lines reportDemoRepos nowB).get? 21
      = some ("| Avg Issues per Year | 50.0 | N/A |") := by
    rw [hq nowB, hmB, pyRound_den_one 2 (by norm_num),
      show ratToPyStr (50 : ℚ) = "50.0" by decide]
    rfl
  refine ⟨hrA, hrB, ?_, by decide⟩
  rw [hrA, hrB]
  decide
